import Mathlib

/-!
Shallow embedding of two artifacts of the Slicer repository fragment:

* `Base/QTGUI/qSlicerSettingsStylesPanel.cxx` - a Qt settings panel that lets
  the user pick the application visual style, fonts and tooltip behaviour.
  The Qt widgets the panel manipulates (style combo box, path-list view,
  check boxes) are modelled as explicit state; every slot of the panel
  becomes a pure function from the pre-state (global application state and
  panel state, plus the event payload) to a `HandlerResult` holding the
  post-state together with the warnings logged and signals emitted during
  the call.

* `Modules/Loadable/Models/SubjectHierarchyPlugins/qSlicerSubjectHierarchyModelsPlugin.h` -
  the declaration of a subject-hierarchy plugin with confidence-scored
  ownership queries.
-/

namespace Slicer

/-- Model of a `QComboBox`: a list of item texts and the current index.
Qt uses the sentinel index `-1` for "no selection". -/
structure ComboBox where
  items : List String
  currentIndex : Int
deriving DecidableEq, Repr

/-- First index of `t` in `l`, if any (exact, case-sensitive match: the
default `Qt::MatchExactly | Qt::MatchCaseSensitive` flags of
`QComboBox::findText`). -/
def findTextIdx : List String → String → Option Nat
  | [], _ => none
  | x :: xs, t => if x = t then some 0 else (findTextIdx xs t).map (· + 1)

/-- `QComboBox::findText`: index of the first exact match, `-1` if absent. -/
def ComboBox.findText (cb : ComboBox) (t : String) : Int :=
  match findTextIdx cb.items t with
  | some i => (i : Int)
  | none => -1

/-- `QComboBox::currentText`: the text at the current index, or the empty
string when no item is selected. -/
def ComboBox.currentText (cb : ComboBox) : String :=
  if cb.currentIndex < 0 then "" else cb.items.getD cb.currentIndex.toNat ""

/-- `QComboBox::setCurrentIndex`. -/
def ComboBox.setCurrentIndex (cb : ComboBox) (i : Int) : ComboBox :=
  { cb with currentIndex := i }

/-- The eleven built-in Qt style names listed in the private constructor
`qSlicerSettingsStylesPanelPrivate::qSlicerSettingsStylesPanelPrivate`. -/
def QtStyles : List String :=
  ["Windows", "WindowsCE", "WindowsXP", "WindowsVista", "Motif", "CDE",
   "Plastique", "Cleanlooks", "Macintosh", "Macintosh (aqua)", "GTK+"]

/-- ASCII lowercasing of a character code, used to model Qt's
case-insensitive string comparison (all style names involved are ASCII). -/
def lowerNat (c : Char) : Nat :=
  if 65 ≤ c.toNat ∧ c.toNat ≤ 90 then c.toNat + 32 else c.toNat

/-- The case-folded key of a string for case-insensitive comparison. -/
def lowerKey (s : String) : List Nat :=
  s.data.map lowerNat

/-- `qSlicerSettingsStylesPanelPrivate::isQtStyle`: case-insensitive
membership of the style name in the built-in Qt style list
(`QStringList::contains` with `Qt::CaseInsensitive`). -/
def isQtStyle (styleName : String) : Bool :=
  QtStyles.any (fun q => lowerKey q == lowerKey styleName)

/-- Qt tool-button styles used by `onShowToolButtonTextToggled`. -/
inductive ToolButtonStyle where
  | textUnderIcon
  | iconOnly
deriving DecidableEq, Repr

/-- State of the panel's widgets and of the private class
`qSlicerSettingsStylesPanelPrivate`. -/
structure PanelState where
  /-- The `StyleComboBox` widget. -/
  styleComboBox : ComboBox
  /-- `qSlicerSettingsStylesPanelPrivate::AdditionalPaths` (the paths most
  recently pushed into the application library paths). -/
  additionalPaths : List String
  /-- The directory list held by the `AdditionalStylePathsView` widget. -/
  additionalStylePathsView : List String
  /-- The directories currently selected in `AdditionalStylePathsView`. -/
  selectedStylePaths : List String
  /-- The `checked` property of `ShowToolTipsCheckBox`. -/
  showToolTipsChecked : Bool
  /-- The `checked` property of `ShowToolButtonTextCheckBox`. -/
  showToolButtonTextChecked : Bool
  /-- The `checked` property of `RestoreUICheckBox`. -/
  restoreUIChecked : Bool
  /-- The `currentFont` property of `FontButton`. -/
  fontButtonFont : String
deriving DecidableEq, Repr

/-- Global application state touched by the panel: `QCoreApplication`
library paths, the `QStyleFactory` key set, and the `qSlicerApplication`
style, palette, event filter, font, tooltip and tool-button settings. -/
structure AppState where
  libraryPaths : List String
  styleFactoryKeys : List String
  appStyle : String
  /-- Palette set from `QStyle::standardPalette`; identified by the style
  name it came from. -/
  appPaletteFromStyle : String
  /-- Name of the style object currently installed as the application
  event filter. `none` models the filter being removed. -/
  eventFilterStyle : Option String
  appFont : String
  toolTipsEnabled : Bool
  toolButtonStyle : ToolButtonStyle
  mainWindowExists : Bool
deriving DecidableEq, Repr

/-- Result of running one slot of the panel: the post-states plus the
observable effects of the call (warnings written with `qWarning`, payloads
of `currentStyleChanged` emissions, and settings-store keys read directly
rather than through a registered property). -/
structure HandlerResult where
  app : AppState
  panel : PanelState
  warnings : List String
  emittedCurrentStyleChanged : List String
  settingsKeysRead : List String
deriving DecidableEq, Repr

/-- `qSlicerSettingsStylesPanelPrivate::styleIndex`: the combo-box index of
`styleName`; if not found, fall back to the index of the default style
named Slicer (which may itself be `-1` when absent). -/
def styleIndex (cb : ComboBox) (styleName : String) : Int :=
  let i := cb.findText styleName
  if i = -1 then cb.findText "Slicer" else i

/-- `qSlicerSettingsStylesPanelPrivate::populateStyles`: clear the combo
box, insert every `QStyleFactory` key that is not a built-in Qt style, then
restore the previously selected style through `styleIndex`. -/
def populateStyles (cb : ComboBox) (styleFactoryKeys : List String) : ComboBox :=
  let current := cb.currentText
  let repopulated : ComboBox :=
    { items := styleFactoryKeys.filter (fun s => ! isQtStyle s), currentIndex := cb.currentIndex }
  repopulated.setCurrentIndex (styleIndex repopulated current)

/-- `qSlicerSettingsStylesPanel::currentStyle`: the combo box current text. -/
def currentStyle (panel : PanelState) : String :=
  panel.styleComboBox.currentText

/-- `qSlicerSettingsStylesPanel::setCurrentStyle`: select the index that
`styleIndex` resolves for the requested name. -/
def setCurrentStyle (panel : PanelState) (newStyleName : String) : PanelState :=
  { panel with styleComboBox :=
      panel.styleComboBox.setCurrentIndex (styleIndex panel.styleComboBox newStyleName) }

/-- `QStyleFactory::create`: succeeds exactly when the requested name
matches a registered factory key case-insensitively (Qt lowercases the key
before lookup); returns the matching key. -/
def styleCreate (styleFactoryKeys : List String) (name : String) : Option String :=
  styleFactoryKeys.find? (fun k => lowerKey k == lowerKey name)

/-- `QCoreApplication::addLibraryPath`: if the path is empty or already in
the list, the list is not changed; otherwise the path is prepended. -/
def addLibraryPath (paths : List String) (p : String) : List String :=
  if p = "" ∨ p ∈ paths then paths else p :: paths

/-- `QCoreApplication::removeLibraryPath`: remove the path from the list. -/
def removeLibraryPath (paths : List String) (p : String) : List String :=
  paths.filter (fun x => x ≠ p)

/-- `qSlicerSettingsStylesPanel::onStyleChanged`: remove the current style
event filter, try to create the requested style; on failure log a warning
and revert the combo box to the Slicer style without emitting anything; on
success install the new style, its event filter and its standard palette
and emit `currentStyleChanged` with the requested name. -/
def onStyleChanged (app : AppState) (panel : PanelState) (newStyleName : String) :
    HandlerResult :=
  let app0 := { app with eventFilterStyle := none }
  match styleCreate app.styleFactoryKeys newStyleName with
  | none =>
      { app := app0
        panel := setCurrentStyle panel "Slicer"
        warnings := ["Style named " ++ newStyleName ++ " not found ! Defaulting to Slicer's style."]
        emittedCurrentStyleChanged := []
        settingsKeysRead := [] }
  | some _ =>
      { app := { app0 with
                  appStyle := newStyleName
                  eventFilterStyle := some newStyleName
                  appPaletteFromStyle := newStyleName }
        panel := panel
        warnings := []
        emittedCurrentStyleChanged := [newStyleName]
        settingsKeysRead := [] }

/-- `qSlicerSettingsStylesPanel::onAdditionalStylePathsChanged`: remove the
old additional paths from the application library paths, read the new
directory list, add each new path to the library paths, remember the new
list and repopulate the style combo box. -/
def onAdditionalStylePathsChanged (app : AppState) (panel : PanelState) : HandlerResult :=
  let afterRemove := panel.additionalPaths.foldl removeLibraryPath app.libraryPaths
  let newPaths := panel.additionalStylePathsView
  let afterAdd := newPaths.foldl addLibraryPath afterRemove
  { app := { app with libraryPaths := afterAdd }
    panel := { panel with
                additionalPaths := newPaths
                styleComboBox := populateStyles panel.styleComboBox app.styleFactoryKeys }
    warnings := []
    emittedCurrentStyleChanged := []
    settingsKeysRead := [] }

/-- `ctkPathListWidget::addDirectory`: append the directory unless already
present. -/
def addDirectory (dirs : List String) (p : String) : List String :=
  if p ∈ dirs then dirs else dirs ++ [p]

/-- `qSlicerSettingsStylesPanel::onAddStyleAdditionalPathClicked`: read the
`Extensions/InstallPath` settings key to seed the directory dialog, then,
unless the dialog was cancelled (empty path), add the chosen directory to
the path view. The dialog outcome is the `dialogResult` argument. -/
def onAddStyleAdditionalPathClicked (app : AppState) (panel : PanelState)
    (dialogResult : String) : HandlerResult :=
  if dialogResult = "" then
    { app := app, panel := panel, warnings := [],
      emittedCurrentStyleChanged := [],
      settingsKeysRead := ["Extensions/InstallPath"] }
  else
    { app := app
      panel := { panel with
                  additionalStylePathsView := addDirectory panel.additionalStylePathsView dialogResult }
      warnings := []
      emittedCurrentStyleChanged := []
      settingsKeysRead := ["Extensions/InstallPath"] }

/-- `qSlicerSettingsStylesPanel::onRemoveStyleAdditionalPathClicked`:
remove all selected directories from the path view. -/
def onRemoveStyleAdditionalPathClicked (app : AppState) (panel : PanelState) : HandlerResult :=
  { app := app
    panel := { panel with
                additionalStylePathsView :=
                  panel.additionalStylePathsView.filter
                    (fun p => ! panel.selectedStylePaths.contains p)
                selectedStylePaths := [] }
    warnings := []
    emittedCurrentStyleChanged := []
    settingsKeysRead := [] }

/-- `qSlicerSettingsStylesPanel::onFontChanged`: set the application font. -/
def onFontChanged (app : AppState) (panel : PanelState) (font : String) : HandlerResult :=
  { app := { app with appFont := font }
    panel := { panel with fontButtonFont := font }
    warnings := []
    emittedCurrentStyleChanged := []
    settingsKeysRead := [] }

/-- `qSlicerSettingsStylesPanel::onShowToolTipsToggled`, run when
`ShowToolTipsCheckBox` has been toggled to `disable`: the slot sets the
application tooltips-enabled state to the negation of the checkbox value. -/
def onShowToolTipsToggled (app : AppState) (panel : PanelState) (disable : Bool) :
    HandlerResult :=
  { app := { app with toolTipsEnabled := ! disable }
    panel := { panel with showToolTipsChecked := disable }
    warnings := []
    emittedCurrentStyleChanged := []
    settingsKeysRead := [] }

/-- `qSlicerSettingsStylesPanel::onShowToolButtonTextToggled`: when a main
window exists, show text under the icons iff the box is checked. -/
def onShowToolButtonTextToggled (app : AppState) (panel : PanelState) (enable : Bool) :
    HandlerResult :=
  { app := if app.mainWindowExists then
             { app with toolButtonStyle :=
                 if enable then ToolButtonStyle.textUnderIcon else ToolButtonStyle.iconOnly }
           else app
    panel := { panel with showToolButtonTextChecked := enable }
    warnings := []
    emittedCurrentStyleChanged := []
    settingsKeysRead := [] }

/-- A value stored in the application settings store. -/
inductive SettingValue where
  | boolV (b : Bool)
  | stringV (s : String)
  | stringListV (l : List String)
deriving DecidableEq, Repr

/-- One `registerProperty` call of
`qSlicerSettingsStylesPanelPrivate::init`: the settings key, the widget
object it is bound to, the name of the bound widget property, and the
reading of that property from the panel state. -/
structure PropertyRegistration where
  key : String
  widgetObject : String
  propertyName : String
  readValue : PanelState → SettingValue

/-- The six `registerProperty` calls of
`qSlicerSettingsStylesPanelPrivate::init`, in source order. -/
def registeredProperties : List PropertyRegistration :=
  [ { key := "no-tooltip", widgetObject := "ShowToolTipsCheckBox", propertyName := "checked",
      readValue := fun panel => SettingValue.boolV panel.showToolTipsChecked },
    { key := "font", widgetObject := "FontButton", propertyName := "currentFont",
      readValue := fun panel => SettingValue.stringV panel.fontButtonFont },
    { key := "MainWindow/ShowToolButtonText", widgetObject := "ShowToolButtonTextCheckBox",
      propertyName := "checked",
      readValue := fun panel => SettingValue.boolV panel.showToolButtonTextChecked },
    { key := "MainWindow/RestoreGeometry", widgetObject := "RestoreUICheckBox",
      propertyName := "checked",
      readValue := fun panel => SettingValue.boolV panel.restoreUIChecked },
    { key := "Styles/AdditionalPaths", widgetObject := "AdditionalStylePathsView",
      propertyName := "directoryList",
      readValue := fun panel => SettingValue.stringListV panel.additionalStylePathsView },
    { key := "Styles/Style", widgetObject := "qSlicerSettingsStylesPanel",
      propertyName := "currentStyle",
      readValue := fun panel => SettingValue.stringV (currentStyle panel) } ]

/-- The settings keys registered by the panel at initialization. -/
def registeredKeys : List String := registeredProperties.map (fun r => r.key)

/-- The value stored under the `no-tooltip` settings key: by the first
`registerProperty` call it is the `checked` property of
`ShowToolTipsCheckBox`. -/
def storedNoTooltipValue (panel : PanelState) : Bool :=
  panel.showToolTipsChecked

/-- A (possibly null) pointer to a `vtkMRMLNode`; the Models plugin only
distinguishes whether the node is a `vtkMRMLModelNode`. -/
inductive MRMLNodePtr where
  | null
  | node (isModelNode : Bool)
deriving DecidableEq, Repr

/-- `vtkMRMLSubjectHierarchyNode::INVALID_ITEM_ID` (a `vtkIdType`). -/
def invalidItemID : Int := 0

/-- A subject-hierarchy scene: the data node associated with each item. -/
def SubjectHierarchySceneModel : Type := Int → MRMLNodePtr

/-- Modelled from the spec: the implementation file
`qSlicerSubjectHierarchyModelsPlugin.cxx` is not under `src/` (the header
only declares this entry point). Per the header documentation the return
value is a confidence number between 0 and 1, where 0 means the plugin
cannot handle the node; the Models plugin handles model nodes, so the
model returns a positive mid-range confidence for a `vtkMRMLModelNode`
and 0 for a null pointer or any other node. The prospective parent item
(default: the invalid item id) is ignored when computing the confidence. -/
def canAddNodeToSubjectHierarchy (node : MRMLNodePtr)
    (parentItemID : Int := invalidItemID) : ℚ :=
  match node with
  | MRMLNodePtr.null => 0
  | MRMLNodePtr.node isModelNode => if isModelNode then 1/2 else 0

/-- Modelled from the spec: the implementation file
`qSlicerSubjectHierarchyModelsPlugin.cxx` is not under `src/`. Per the
header documentation the return value is a confidence number between 0
and 1, where 0 means the plugin cannot handle the item; the model returns
the same confidence the plugin gives the item's associated data node. -/
def canOwnSubjectHierarchyItem (scene : SubjectHierarchySceneModel) (itemID : Int) : ℚ :=
  canAddNodeToSubjectHierarchy (scene itemID)

/-- Modelled from the spec: role of the Models plugin (implementation not
under `src/`); each plugin provides exactly one role. -/
def roleForPlugin : String := "Models"

/-- Modelled from the spec: icon of an owned item (implementation not
under `src/`); an empty icon (`none`) when there is nothing to set. -/
def icon (scene : SubjectHierarchySceneModel) (itemID : Int) : Option String :=
  match scene itemID with
  | MRMLNodePtr.node true => some "Model.png"
  | _ => none

/-- Modelled from the spec: visibility icon for a visibility state
(implementation not under `src/`). -/
def visibilityIcon (visible : Int) : Option String :=
  if visible = 0 then some "VisibleOff.png" else some "VisibleOn.png"

/-- Modelled from the spec: tooltip generated for an owned item
(implementation not under `src/`). -/
def tooltip (scene : SubjectHierarchySceneModel) (itemID : Int) : String :=
  match scene itemID with
  | MRMLNodePtr.node true => "Model"
  | _ => ""

/-- Modelled from the spec: visibility context menu item actions added to
the tree view (implementation not under `src/`); the header declares a
slice-intersection toggle slot for its action. -/
def visibilityContextMenuActions : List String :=
  ["Toggle slice intersection visibility"]

/-- The virtual entry points of the subject-hierarchy plugin interface
that the host plugin registry calls, as declared in
`qSlicerSubjectHierarchyModelsPlugin.h`. -/
structure SubjectHierarchyPluginInterface where
  canAddNodeToSubjectHierarchy : MRMLNodePtr → Int → ℚ
  canOwnSubjectHierarchyItem : SubjectHierarchySceneModel → Int → ℚ
  roleForPlugin : String
  icon : SubjectHierarchySceneModel → Int → Option String
  visibilityIcon : Int → Option String
  tooltip : SubjectHierarchySceneModel → Int → String
  visibilityContextMenuActions : List String

/-- The Models plugin, binding every declared entry point of
`qSlicerSubjectHierarchyModelsPlugin.h` to its operation. -/
def modelsPlugin : SubjectHierarchyPluginInterface :=
  { canAddNodeToSubjectHierarchy := fun node parentItemID =>
      canAddNodeToSubjectHierarchy node parentItemID
    canOwnSubjectHierarchyItem := canOwnSubjectHierarchyItem
    roleForPlugin := roleForPlugin
    icon := icon
    visibilityIcon := visibilityIcon
    tooltip := tooltip
    visibilityContextMenuActions := visibilityContextMenuActions }

/-- A sample application state used to instantiate closed statements. -/
def sampleApp : AppState :=
  { libraryPaths := ["/opt/slicer/lib"]
    styleFactoryKeys := ["Slicer", "Light Slicer", "Windows", "Fusion"]
    appStyle := "Slicer"
    appPaletteFromStyle := "Slicer"
    eventFilterStyle := some "Slicer"
    appFont := "Helvetica"
    toolTipsEnabled := true
    toolButtonStyle := ToolButtonStyle.iconOnly
    mainWindowExists := true }

/-- A sample panel state used to instantiate closed statements. -/
def samplePanel : PanelState :=
  { styleComboBox := { items := ["Slicer", "Light Slicer", "Fusion"], currentIndex := 0 }
    additionalPaths := ["/old/styles"]
    additionalStylePathsView := ["/new/styles"]
    selectedStylePaths := []
    showToolTipsChecked := false
    showToolButtonTextChecked := false
    restoreUIChecked := true
    fontButtonFont := "Helvetica" }

/-! ### Helper lemmas -/

theorem findTextIdx_eq_none_iff (l : List String) (t : String) :
    findTextIdx l t = none ↔ t ∉ l := by
  induction l with
  | nil => simp [findTextIdx]
  | cons x xs ih =>
    by_cases hx : x = t
    · simp [findTextIdx, hx]
    · simp only [findTextIdx, if_neg hx, Option.map_eq_none', ih, List.mem_cons, not_or]
      constructor
      · intro h
        exact ⟨fun ht => hx ht.symm, h⟩
      · intro h
        exact h.2

theorem findTextIdx_getD (l : List String) (t : String) (i : Nat)
    (h : findTextIdx l t = some i) : i < l.length ∧ l.getD i "" = t := by
  induction l generalizing i with
  | nil => simp [findTextIdx] at h
  | cons x xs ih =>
    by_cases hx : x = t
    · simp [findTextIdx, hx] at h
      subst h
      simpa using hx
    · simp [findTextIdx, hx, Option.map_eq_some'] at h
      obtain ⟨j, hj, hji⟩ := h
      obtain ⟨hlen, hget⟩ := ih j hj
      subst hji
      exact ⟨Nat.succ_lt_succ hlen, by simpa using hget⟩

theorem styleIndex_mem (cb : ComboBox) (s : String) (hs : s ∈ cb.items) :
    0 ≤ styleIndex cb s ∧ cb.items.getD (styleIndex cb s).toNat "" = s := by
  cases hfi : findTextIdx cb.items s with
  | none => exact absurd ((findTextIdx_eq_none_iff _ _).mp hfi) (by simp [hs])
  | some i =>
    obtain ⟨hlen, hget⟩ := findTextIdx_getD _ _ _ hfi
    have hne : ((i : Int)) ≠ -1 := by omega
    have hidx : styleIndex cb s = (i : Int) := by
      simp [styleIndex, ComboBox.findText, hfi, hne]
    refine ⟨by rw [hidx]; omega, ?_⟩
    rw [hidx]
    simpa using hget

theorem styleIndex_not_mem (cb : ComboBox) (s : String) (hs : s ∉ cb.items)
    (hSlicer : "Slicer" ∈ cb.items) :
    0 ≤ styleIndex cb s ∧ cb.items.getD (styleIndex cb s).toNat "" = "Slicer" := by
  have hnone : findTextIdx cb.items s = none := (findTextIdx_eq_none_iff _ _).mpr hs
  cases hfi : findTextIdx cb.items "Slicer" with
  | none => exact absurd ((findTextIdx_eq_none_iff _ _).mp hfi) (by simp [hSlicer])
  | some i =>
    obtain ⟨hlen, hget⟩ := findTextIdx_getD _ _ _ hfi
    have hidx : styleIndex cb s = (i : Int) := by
      simp [styleIndex, ComboBox.findText, hnone, hfi]
    refine ⟨by rw [hidx]; omega, ?_⟩
    rw [hidx]
    simpa using hget

theorem currentText_setCurrentIndex_styleIndex (cb : ComboBox) (s : String) :
    (s ∈ cb.items → (cb.setCurrentIndex (styleIndex cb s)).currentText = s) ∧
    (s ∉ cb.items → "Slicer" ∈ cb.items →
      (cb.setCurrentIndex (styleIndex cb s)).currentText = "Slicer") := by
  constructor
  · intro hs
    obtain ⟨hpos, hget⟩ := styleIndex_mem cb s hs
    simp only [ComboBox.currentText, ComboBox.setCurrentIndex]
    rw [if_neg (not_lt.mpr hpos)]
    exact hget
  · intro hs hSlicer
    obtain ⟨hpos, hget⟩ := styleIndex_not_mem cb s hs hSlicer
    simp only [ComboBox.currentText, ComboBox.setCurrentIndex]
    rw [if_neg (not_lt.mpr hpos)]
    exact hget

theorem mem_removeLibraryPath (l : List String) (p x : String) :
    x ∈ removeLibraryPath l p ↔ x ∈ l ∧ x ≠ p := by
  simp [removeLibraryPath]

theorem mem_foldl_removeLibraryPath (ps : List String) (l : List String) (x : String) :
    x ∈ ps.foldl removeLibraryPath l ↔ x ∈ l ∧ x ∉ ps := by
  induction ps generalizing l with
  | nil => simp
  | cons p rest ih =>
    simp only [List.foldl_cons, ih, mem_removeLibraryPath, List.mem_cons]
    constructor
    · rintro ⟨⟨hl, hne⟩, hrest⟩
      exact ⟨hl, by rintro (rfl | h) <;> [exact hne rfl; exact hrest h]⟩
    · rintro ⟨hl, hnot⟩
      exact ⟨⟨hl, fun h => hnot (Or.inl h)⟩, fun h => hnot (Or.inr h)⟩

theorem mem_addLibraryPath_of_mem (l : List String) (p x : String) (h : x ∈ l) :
    x ∈ addLibraryPath l p := by
  unfold addLibraryPath
  split
  · exact h
  · exact List.mem_cons_of_mem _ h

theorem mem_foldl_addLibraryPath_of_mem (ps : List String) (l : List String) (x : String)
    (h : x ∈ l) : x ∈ ps.foldl addLibraryPath l := by
  induction ps generalizing l with
  | nil => simpa using h
  | cons p rest ih => exact ih _ (mem_addLibraryPath_of_mem _ _ _ h)

theorem self_mem_foldl_addLibraryPath (ps : List String) (l : List String) (x : String)
    (hx : x ∈ ps) (hne : x ≠ "") : x ∈ ps.foldl addLibraryPath l := by
  induction ps generalizing l with
  | nil => cases hx
  | cons p rest ih =>
    rw [List.foldl_cons]
    rcases List.mem_cons.mp hx with rfl | hmem
    · refine mem_foldl_addLibraryPath_of_mem _ _ _ ?_
      unfold addLibraryPath
      split
      · rename_i hcase
        rcases hcase with hempty | hin
        · exact absurd hempty hne
        · exact hin
      · exact List.mem_cons_self _ _
    · exact ih _ hmem

theorem mem_of_mem_foldl_addLibraryPath (ps : List String) (l : List String) (x : String)
    (h : x ∈ ps.foldl addLibraryPath l) : x ∈ l ∨ x ∈ ps := by
  induction ps generalizing l with
  | nil => exact Or.inl (by simpa using h)
  | cons p rest ih =>
    rw [List.foldl_cons] at h
    rcases ih _ h with hadd | hrest
    · unfold addLibraryPath at hadd
      split at hadd
      · exact Or.inl hadd
      · rcases List.mem_cons.mp hadd with rfl | hl
        · exact Or.inr (List.mem_cons_self _ _)
        · exact Or.inl hl
    · exact Or.inr (List.mem_cons_of_mem _ hrest)

theorem isQtStyle_self (q : String) (hq : q ∈ QtStyles) : isQtStyle q = true := by
  unfold isQtStyle
  rw [List.any_eq_true]
  exact ⟨q, hq, by simp⟩

/-! ### Claim theorems -/

/-- C1: when `onStyleChanged` is invoked with a style name for which no
style can be created, it logs a warning, reverts the current style to the
default Slicer style and does not emit `currentStyleChanged`; for every
name that is found, the new style is applied (style, event filter,
standard palette) and `currentStyleChanged` is emitted with that name. -/
theorem onStyleChanged_fallback_or_apply (app : AppState) (panel : PanelState)
    (newStyleName : String) (hSlicer : "Slicer" ∈ panel.styleComboBox.items) :
    (styleCreate app.styleFactoryKeys newStyleName = none →
      (onStyleChanged app panel newStyleName).warnings ≠ [] ∧
      (onStyleChanged app panel newStyleName).emittedCurrentStyleChanged = [] ∧
      currentStyle (onStyleChanged app panel newStyleName).panel = "Slicer") ∧
    (∀ k, styleCreate app.styleFactoryKeys newStyleName = some k →
      (onStyleChanged app panel newStyleName).warnings = [] ∧
      (onStyleChanged app panel newStyleName).emittedCurrentStyleChanged = [newStyleName] ∧
      (onStyleChanged app panel newStyleName).app.appStyle = newStyleName ∧
      (onStyleChanged app panel newStyleName).app.eventFilterStyle = some newStyleName ∧
      (onStyleChanged app panel newStyleName).app.appPaletteFromStyle = newStyleName) := by
  constructor
  · intro hnone
    refine ⟨by simp [onStyleChanged, hnone], by simp [onStyleChanged, hnone], ?_⟩
    have hrev : (onStyleChanged app panel newStyleName).panel = setCurrentStyle panel "Slicer" := by
      simp [onStyleChanged, hnone]
    rw [hrev]
    exact (currentText_setCurrentIndex_styleIndex panel.styleComboBox "Slicer").1 hSlicer
  · intro k hk
    simp [onStyleChanged, hk]

/-- C1 witness: in the sample states, the unknown name falls back to the
Slicer style with no emission, and a known name is emitted. -/
theorem onStyleChanged_fallback_or_apply_witness :
    ((onStyleChanged sampleApp samplePanel "NoSuchStyle").emittedCurrentStyleChanged = [] ∧
      currentStyle (onStyleChanged sampleApp samplePanel "NoSuchStyle").panel = "Slicer") ∧
    (onStyleChanged sampleApp samplePanel "Light Slicer").emittedCurrentStyleChanged =
      ["Light Slicer"] := by
  have hfall := (onStyleChanged_fallback_or_apply sampleApp samplePanel "NoSuchStyle"
      (by decide)).1 (by decide)
  have happly := (onStyleChanged_fallback_or_apply sampleApp samplePanel "Light Slicer"
      (by decide)).2 "Light Slicer" (by decide)
  exact ⟨⟨hfall.2.1, hfall.2.2⟩, happly.2.1⟩

/-- C2: both confidence queries of the Models subject-hierarchy plugin
return a number between 0 and 1 inclusive, for every node and every item. -/
theorem confidence_between_zero_and_one :
    (∀ (node : MRMLNodePtr) (parentItemID : Int),
      0 ≤ canAddNodeToSubjectHierarchy node parentItemID ∧
      canAddNodeToSubjectHierarchy node parentItemID ≤ 1) ∧
    (∀ (scene : SubjectHierarchySceneModel) (itemID : Int),
      0 ≤ canOwnSubjectHierarchyItem scene itemID ∧
      canOwnSubjectHierarchyItem scene itemID ≤ 1) := by
  have hnode : ∀ (node : MRMLNodePtr) (parentItemID : Int),
      0 ≤ canAddNodeToSubjectHierarchy node parentItemID ∧
      canAddNodeToSubjectHierarchy node parentItemID ≤ 1 := by
    intro node parentItemID
    cases node with
    | null => norm_num [canAddNodeToSubjectHierarchy]
    | node isModelNode => cases isModelNode <;> norm_num [canAddNodeToSubjectHierarchy]
  exact ⟨hnode, fun scene itemID => hnode (scene itemID) invalidItemID⟩

/-- C3 counterexample: toggling the tooltip checkbox to `true` stores
`true` under the tooltip preference while setting the application
tooltips-enabled state to `false`, so the stored value does not equal the
enabled state and toggling to `b` does not set the state to `b`. -/
theorem tooltip_claim_counterexample :
    storedNoTooltipValue (onShowToolTipsToggled sampleApp samplePanel true).panel = true ∧
    (onShowToolTipsToggled sampleApp samplePanel true).app.toolTipsEnabled = false :=
  ⟨rfl, rfl⟩

/-- C3 amended: the tooltip preference is stored under the `no-tooltip`
key as a disable flag: the stored value equals whether tooltips are
disabled, and toggling the tooltip checkbox to value `b` sets the
application tooltips-enabled state to `!b`. -/
theorem onShowToolTipsToggled_inverts (app : AppState) (panel : PanelState) (b : Bool) :
    "no-tooltip" ∈ registeredKeys ∧
    storedNoTooltipValue (onShowToolTipsToggled app panel b).panel = b ∧
    (onShowToolTipsToggled app panel b).app.toolTipsEnabled = ! b :=
  ⟨by decide, rfl, rfl⟩

/-- C4 counterexample: the panel reads the settings key
`Extensions/InstallPath` in `onAddStyleAdditionalPathClicked`, and that
key is not among the registered keys, so the panel does not register
exactly the keys it reads/writes. -/
theorem unregistered_key_read_counterexample :
    "Extensions/InstallPath" ∈
      (onAddStyleAdditionalPathClicked sampleApp samplePanel "").settingsKeysRead ∧
    "Extensions/InstallPath" ∉ registeredKeys :=
  ⟨by decide, by decide⟩

/-- C4 amended: at initialization the panel registers exactly six keys -
`no-tooltip`, `font`, `MainWindow/ShowToolButtonText`,
`MainWindow/RestoreGeometry`, `Styles/AdditionalPaths`, `Styles/Style` -
each bound to the corresponding widget property; it additionally reads
the unregistered key `Extensions/InstallPath` when the add-path button is
clicked. -/
theorem registeredProperties_bindings :
    registeredKeys = ["no-tooltip", "font", "MainWindow/ShowToolButtonText",
      "MainWindow/RestoreGeometry", "Styles/AdditionalPaths", "Styles/Style"] ∧
    (∀ panel : PanelState,
      registeredProperties.map
          (fun r => (r.key, r.widgetObject, r.propertyName, r.readValue panel)) =
        [("no-tooltip", "ShowToolTipsCheckBox", "checked",
           SettingValue.boolV panel.showToolTipsChecked),
         ("font", "FontButton", "currentFont",
           SettingValue.stringV panel.fontButtonFont),
         ("MainWindow/ShowToolButtonText", "ShowToolButtonTextCheckBox", "checked",
           SettingValue.boolV panel.showToolButtonTextChecked),
         ("MainWindow/RestoreGeometry", "RestoreUICheckBox", "checked",
           SettingValue.boolV panel.restoreUIChecked),
         ("Styles/AdditionalPaths", "AdditionalStylePathsView", "directoryList",
           SettingValue.stringListV panel.additionalStylePathsView),
         ("Styles/Style", "qSlicerSettingsStylesPanel", "currentStyle",
           SettingValue.stringV (currentStyle panel))]) ∧
    (∀ app panel dialogResult,
      (onAddStyleAdditionalPathClicked app panel dialogResult).settingsKeysRead =
        ["Extensions/InstallPath"]) := by
  refine ⟨rfl, fun _ => rfl, ?_⟩
  intro app panel dialogResult
  by_cases h : dialogResult = "" <;> simp [onAddStyleAdditionalPathClicked, h]

/-- C5: when the additional-style-path list changes, every old path not
in the new list is gone from the library paths, every (non-empty) new
path is in the library paths, the stored additional paths equal the new
directory list, the style combo box is repopulated, and no other panel
state changes and nothing is logged or emitted. -/
theorem onAdditionalStylePathsChanged_spec (app : AppState) (panel : PanelState) :
    (∀ p ∈ panel.additionalPaths, p ∉ panel.additionalStylePathsView →
      p ∉ (onAdditionalStylePathsChanged app panel).app.libraryPaths) ∧
    (∀ p ∈ panel.additionalStylePathsView, p ≠ "" →
      p ∈ (onAdditionalStylePathsChanged app panel).app.libraryPaths) ∧
    (onAdditionalStylePathsChanged app panel).panel.additionalPaths =
      panel.additionalStylePathsView ∧
    (onAdditionalStylePathsChanged app panel).panel.styleComboBox =
      populateStyles panel.styleComboBox app.styleFactoryKeys ∧
    (onAdditionalStylePathsChanged app panel).panel.additionalStylePathsView =
      panel.additionalStylePathsView ∧
    (onAdditionalStylePathsChanged app panel).panel.selectedStylePaths =
      panel.selectedStylePaths ∧
    (onAdditionalStylePathsChanged app panel).panel.showToolTipsChecked =
      panel.showToolTipsChecked ∧
    (onAdditionalStylePathsChanged app panel).panel.showToolButtonTextChecked =
      panel.showToolButtonTextChecked ∧
    (onAdditionalStylePathsChanged app panel).panel.restoreUIChecked =
      panel.restoreUIChecked ∧
    (onAdditionalStylePathsChanged app panel).panel.fontButtonFont =
      panel.fontButtonFont ∧
    (onAdditionalStylePathsChanged app panel).warnings = [] ∧
    (onAdditionalStylePathsChanged app panel).emittedCurrentStyleChanged = [] := by
  refine ⟨?_, ?_, rfl, rfl, rfl, rfl, rfl, rfl, rfl, rfl, rfl, rfl⟩
  · intro p hpOld hpNotNew hpMem
    have hsplit := mem_of_mem_foldl_addLibraryPath panel.additionalStylePathsView
      (panel.additionalPaths.foldl removeLibraryPath app.libraryPaths) p hpMem
    rcases hsplit with hrem | hnew
    · exact ((mem_foldl_removeLibraryPath _ _ _).mp hrem).2 hpOld
    · exact hpNotNew hnew
  · intro p hpNew hpne
    exact self_mem_foldl_addLibraryPath _ _ _ hpNew hpne

/-- C5 witness: in the sample states, the old path is removed from the
library paths and the new path is added. -/
theorem onAdditionalStylePathsChanged_spec_witness :
    "/old/styles" ∉ (onAdditionalStylePathsChanged sampleApp samplePanel).app.libraryPaths ∧
    "/new/styles" ∈ (onAdditionalStylePathsChanged sampleApp samplePanel).app.libraryPaths := by
  have h := onAdditionalStylePathsChanged_spec sampleApp samplePanel
  exact ⟨h.1 "/old/styles" (by decide) (by decide), h.2.1 "/new/styles" (by decide) (by decide)⟩

/-- C6: no slot of the panel other than `onStyleChanged` ever logs a
warning: every other handler completes without a distinct error path. -/
theorem only_onStyleChanged_warns :
    (∀ app panel font, (onFontChanged app panel font).warnings = []) ∧
    (∀ app panel disable, (onShowToolTipsToggled app panel disable).warnings = []) ∧
    (∀ app panel enable, (onShowToolButtonTextToggled app panel enable).warnings = []) ∧
    (∀ app panel, (onAdditionalStylePathsChanged app panel).warnings = []) ∧
    (∀ app panel dialogResult,
      (onAddStyleAdditionalPathClicked app panel dialogResult).warnings = []) ∧
    (∀ app panel, (onRemoveStyleAdditionalPathClicked app panel).warnings = []) := by
  refine ⟨fun _ _ _ => rfl, fun _ _ _ => rfl, fun _ _ _ => rfl, fun _ _ => rfl, ?_,
    fun _ _ => rfl⟩
  intro app panel dialogResult
  by_cases h : dialogResult = "" <;> simp [onAddStyleAdditionalPathClicked, h]

/-- C7: the subject-hierarchy plugin binds the declared virtual entry
points `canAddNodeToSubjectHierarchy`, `canOwnSubjectHierarchyItem`,
`roleForPlugin`, `icon`, `tooltip` and `visibilityContextMenuActions`, and
`canAddNodeToSubjectHierarchy` applied without a parent argument uses the
invalid item identifier as the default parent. -/
theorem plugin_declares_entry_points :
    modelsPlugin.canAddNodeToSubjectHierarchy =
      (fun node parentItemID => canAddNodeToSubjectHierarchy node parentItemID) ∧
    modelsPlugin.canOwnSubjectHierarchyItem = canOwnSubjectHierarchyItem ∧
    modelsPlugin.roleForPlugin = roleForPlugin ∧
    modelsPlugin.icon = icon ∧
    modelsPlugin.tooltip = tooltip ∧
    modelsPlugin.visibilityContextMenuActions = visibilityContextMenuActions ∧
    ∀ node : MRMLNodePtr,
      canAddNodeToSubjectHierarchy node = canAddNodeToSubjectHierarchy node invalidItemID :=
  ⟨rfl, rfl, rfl, rfl, rfl, rfl, fun _ => rfl⟩

/-- C8: selecting a name present in the style combo box makes it the
current style; selecting an absent name makes the current style `Slicer`
whenever `Slicer` is present. -/
theorem setCurrentStyle_then_currentStyle (panel : PanelState) (s : String) :
    (s ∈ panel.styleComboBox.items → currentStyle (setCurrentStyle panel s) = s) ∧
    (s ∉ panel.styleComboBox.items → "Slicer" ∈ panel.styleComboBox.items →
      currentStyle (setCurrentStyle panel s) = "Slicer") :=
  ⟨fun hs => (currentText_setCurrentIndex_styleIndex panel.styleComboBox s).1 hs,
   fun hs hSlicer => (currentText_setCurrentIndex_styleIndex panel.styleComboBox s).2 hs hSlicer⟩

/-- C8 witness: in the sample panel, a present name round-trips and an
absent one falls back to `Slicer`. -/
theorem setCurrentStyle_then_currentStyle_witness :
    currentStyle (setCurrentStyle samplePanel "Fusion") = "Fusion" ∧
    currentStyle (setCurrentStyle samplePanel "Unknown") = "Slicer" :=
  ⟨(setCurrentStyle_then_currentStyle samplePanel "Fusion").1 (by decide),
   (setCurrentStyle_then_currentStyle samplePanel "Unknown").2 (by decide) (by decide)⟩

/-- C9: a cancelled add-path dialog (empty path) leaves the panel and the
application state unchanged, with nothing logged or emitted. -/
theorem onAddStyleAdditionalPathClicked_cancelled (app : AppState) (panel : PanelState) :
    (onAddStyleAdditionalPathClicked app panel "").panel = panel ∧
    (onAddStyleAdditionalPathClicked app panel "").app = app ∧
    (onAddStyleAdditionalPathClicked app panel "").warnings = [] ∧
    (onAddStyleAdditionalPathClicked app panel "").emittedCurrentStyleChanged = [] := by
  simp [onAddStyleAdditionalPathClicked]

/-- C10: after every run of `populateStyles` the combo box holds exactly
the style-factory keys that do not case-insensitively match a built-in Qt
style name, so no built-in Qt style name ever appears in it. -/
theorem populateStyles_items_spec (cb : ComboBox) (styleFactoryKeys : List String) :
    (populateStyles cb styleFactoryKeys).items =
      styleFactoryKeys.filter (fun s => ! isQtStyle s) ∧
    ∀ q ∈ QtStyles, q ∉ (populateStyles cb styleFactoryKeys).items := by
  refine ⟨rfl, ?_⟩
  intro q hq hmem
  rw [show (populateStyles cb styleFactoryKeys).items =
      styleFactoryKeys.filter (fun s => ! isQtStyle s) from rfl, List.mem_filter] at hmem
  have hq2 := hmem.2
  rw [isQtStyle_self q hq] at hq2
  simp at hq2

/-- C10 witness: the built-in key `Windows` of the sample factory is
filtered out of the combo box. -/
theorem populateStyles_items_witness :
    "Windows" ∈ sampleApp.styleFactoryKeys ∧
    "Windows" ∉ (populateStyles samplePanel.styleComboBox sampleApp.styleFactoryKeys).items :=
  ⟨by decide,
   (populateStyles_items_spec samplePanel.styleComboBox sampleApp.styleFactoryKeys).2
     "Windows" (by decide)⟩

end Slicer
